import Mathlib

/-!
Verification of the starknet-foundry command/classifier layer against its
natural-language specification.

The Rust source is embedded shallowly:
* `anyhow::Error` values are modelled by the `String` of their message;
* payloads that the source debug-formats into a message (`{err:?}`) are
  modelled by the already-formatted `String`;
* Rust `HashMap`s are modelled as association lists whose lookup is
  `List.lookup` (first match); `f64` gas values are modelled as `ℚ`.
-/

/-- The enum `starknet::core::types::StarknetError` as matched by
`handle_starknet_command_error` in
`crates/sncast/src/starknet_commands/commands.rs`.  The variants after
`UnsupportedContractClassVersion` are the ones the source's final `_` arm
catches (they are imported from `starknet-rs` but not named in the match). -/
inductive StarknetErrorKind where
  | FailedToReceiveTransaction
  | ContractNotFound
  | BlockNotFound
  | InvalidTransactionIndex
  | ClassHashNotFound
  | TransactionHashNotFound
  | ContractError (err : String)
  | InvalidTransactionNonce
  | InsufficientMaxFee
  | InsufficientAccountBalance
  | ClassAlreadyDeclared
  | TransactionExecutionError (err : String)
  | ValidationFailure (err : String)
  | CompilationFailed
  | ContractClassSizeIsTooLarge
  | NonAccount
  | DuplicateTx
  | CompiledClassHashMismatch
  | UnsupportedTxVersion
  | UnsupportedContractClassVersion
  | PageSizeTooBig
  | NoBlocks
  | InvalidContinuationToken
  | TooManyKeysInFilter
  | NoTraceAvailable
  | UnexpectedError (err : String)
deriving DecidableEq

/-- The enum `starknet::providers::ProviderError`: either a protocol-level
`StarknetError` or one of the transport-level variants, all of which fall
into the classifier's `_` arm. -/
inductive ProviderError where
  | StarknetError (e : StarknetErrorKind)
  | RateLimited
  | ArrayLengthMismatch
  | Other (detail : String)
deriving DecidableEq

/-- The struct `sncast::ErrorData` (carries the revert reason string). -/
structure ErrorData where
  data : String
deriving DecidableEq

/-- The enum `sncast::TransactionError`. -/
inductive TransactionError where
  | Rejected
  | Reverted (data : ErrorData)
deriving DecidableEq

/-- The struct `ContractArtifactsNotFoundData` from
`crates/sncast/src/starknet_commands/commands.rs`. -/
structure ContractArtifactsNotFoundData where
  contract_name : String
deriving DecidableEq

/-- The enum `StarknetCommandError` from
`crates/sncast/src/starknet_commands/commands.rs`. -/
inductive StarknetCommandError where
  | Unhandleable (error : String)
  | ContractArtifactsNotFound (data : ContractArtifactsNotFoundData)
  | TransactionError (error : TransactionError)
  | Handleable (error : ProviderError)
deriving DecidableEq

/-- The part of the missing-artifacts message that follows the contract name
(from the `ContractArtifactsNotFound` arm of `handle_starknet_command_error`). -/
def artifactsNotFoundSuffix : String :=
  " artifact in starknet_artifacts.json file. Please make sure you have specified correct package using `--package` flag and that you have enabled sierra and casm code generation in Scarb.toml"

/-- The message produced for a missing-artifacts error (the format string of
the `ContractArtifactsNotFound` arm of `handle_starknet_command_error`). -/
def artifactsNotFoundMessage (contract_name : String) : String :=
  "Failed to find " ++ contract_name ++ artifactsNotFoundSuffix

/-- The function `handle_starknet_command_error` from
`crates/sncast/src/starknet_commands/commands.rs`, with `anyhow::Error`
modelled as the message string. -/
def handle_starknet_command_error (error : StarknetCommandError) : String :=
  match error with
  | .Unhandleable error => error
  | .ContractArtifactsNotFound ⟨contract_name⟩ => artifactsNotFoundMessage contract_name
  | .Handleable error =>
    match error with
    | .StarknetError .FailedToReceiveTransaction => "Node failed to receive transaction"
    | .StarknetError .ContractNotFound => "There is no contract at the specified address"
    | .StarknetError .BlockNotFound => "Block was not found"
    | .StarknetError .TransactionHashNotFound =>
        "Transaction with provided hash was not found (does not exist)"
    | .StarknetError .InvalidTransactionIndex => "There is no transaction with such an index"
    | .StarknetError .ClassHashNotFound => "Provided class hash does not exist"
    | .StarknetError (.ContractError err) =>
        "An error occurred in the called contract = " ++ err
    | .StarknetError .InvalidTransactionNonce => "Invalid transaction nonce"
    | .StarknetError .InsufficientMaxFee =>
        "Max fee is smaller than the minimal transaction cost"
    | .StarknetError .InsufficientAccountBalance =>
        "Account balance is too small to cover transaction fee"
    | .StarknetError .ClassAlreadyDeclared =>
        "Contract with the same class hash is already declared"
    | .StarknetError (.TransactionExecutionError err) =>
        "Transaction execution error = " ++ err
    | .StarknetError (.ValidationFailure err) =>
        "Contract failed the validation = " ++ err
    | .StarknetError .CompilationFailed => "Contract failed to compile in starknet"
    | .StarknetError .ContractClassSizeIsTooLarge => "Contract class size is too large"
    | .StarknetError .NonAccount => "No account"
    | .StarknetError .DuplicateTx => "Transaction already exists"
    | .StarknetError .CompiledClassHashMismatch => "Compiled class hash mismatch"
    | .StarknetError .UnsupportedTxVersion => "Unsupported transaction version"
    | .StarknetError .UnsupportedContractClassVersion =>
        "Unsupported contract class version"
    | _ => "Unknown RPC error"
  | .TransactionError error =>
    match error with
    | .Rejected => "Transaction has been rejected"
    | .Reverted ⟨reason⟩ => "Transaction has been reverted = " ++ reason

/-- Holds (`true`) exactly on the provider errors named by an explicit arm of the
`Handleable` match in `handle_starknet_command_error` (the spec's "table"). -/
def isListedProviderError (e : ProviderError) : Bool :=
  match e with
  | .StarknetError .FailedToReceiveTransaction => true
  | .StarknetError .ContractNotFound => true
  | .StarknetError .BlockNotFound => true
  | .StarknetError .TransactionHashNotFound => true
  | .StarknetError .InvalidTransactionIndex => true
  | .StarknetError .ClassHashNotFound => true
  | .StarknetError (.ContractError _) => true
  | .StarknetError .InvalidTransactionNonce => true
  | .StarknetError .InsufficientMaxFee => true
  | .StarknetError .InsufficientAccountBalance => true
  | .StarknetError .ClassAlreadyDeclared => true
  | .StarknetError (.TransactionExecutionError _) => true
  | .StarknetError (.ValidationFailure _) => true
  | .StarknetError .CompilationFailed => true
  | .StarknetError .ContractClassSizeIsTooLarge => true
  | .StarknetError .NonAccount => true
  | .StarknetError .DuplicateTx => true
  | .StarknetError .CompiledClassHashMismatch => true
  | .StarknetError .UnsupportedTxVersion => true
  | .StarknetError .UnsupportedContractClassVersion => true
  | _ => false

/-- The message produced by the `TransactionError::Reverted` arm: the literal
prefix followed by the revert reason, verbatim. -/
def revertedMessage (reason : String) : String :=
  "Transaction has been reverted = " ++ reason

/-- Two string concatenations differ whenever their left parts differ at an
index inside both left parts. -/
theorem string_append_ne_of_ne_at {s1 s2 : String} (t1 t2 : String) (i : Nat)
    (h1 : i < s1.data.length) (h2 : i < s2.data.length)
    (hne : s1.data[i]? ≠ s2.data[i]?) : s1 ++ t1 ≠ s2 ++ t2 := by
  intro he
  apply hne
  have hd : s1.data ++ t1.data = s2.data ++ t2.data := by
    rw [← String.data_append, ← String.data_append, he]
  have e1 : (s1.data ++ t1.data)[i]? = s1.data[i]? := List.getElem?_append_left h1
  have e2 : (s2.data ++ t2.data)[i]? = s2.data[i]? := List.getElem?_append_left h2
  rw [← e1, hd, e2]

/-- A string differs from a concatenation whenever it differs from the left
part at an index inside that left part. -/
theorem string_ne_append_of_ne_at {s1 s2 : String} (t2 : String) (i : Nat)
    (h2 : i < s2.data.length) (hne : s1.data[i]? ≠ s2.data[i]?) : s1 ≠ s2 ++ t2 := by
  intro he
  apply hne
  have hd : s1.data = s2.data ++ t2.data := by rw [he, String.data_append]
  have e2 : (s2.data ++ t2.data)[i]? = s2.data[i]? := List.getElem?_append_left h2
  rw [hd, e2]

/-- C1: for every defined provider-error kind the classifier returns the fixed
message of the table; in particular `ContractNotFound`, `ClassAlreadyDeclared`
and `InsufficientAccountBalance` yield their listed messages, and every
provider error not named by an arm of the table yields "Unknown RPC error". -/
theorem provider_error_fixed_messages :
    handle_starknet_command_error (.Handleable (.StarknetError .ContractNotFound)) =
      "There is no contract at the specified address"
    ∧ handle_starknet_command_error (.Handleable (.StarknetError .ClassAlreadyDeclared)) =
      "Contract with the same class hash is already declared"
    ∧ handle_starknet_command_error (.Handleable (.StarknetError .InsufficientAccountBalance)) =
      "Account balance is too small to cover transaction fee"
    ∧ ∀ e : ProviderError, isListedProviderError e = false →
        handle_starknet_command_error (.Handleable e) = "Unknown RPC error" := by
  refine ⟨rfl, rfl, rfl, ?_⟩
  intro e h
  cases e with
  | StarknetError ek => cases ek <;> first | rfl | simp [isListedProviderError] at h
  | RateLimited => rfl
  | ArrayLengthMismatch => rfl
  | Other d => rfl

/-- Witness for C1: `RateLimited` is not in the table and is classified as
"Unknown RPC error". -/
theorem provider_error_fixed_messages_witness :
    handle_starknet_command_error (.Handleable .RateLimited) = "Unknown RPC error" :=
  provider_error_fixed_messages.2.2.2 .RateLimited rfl

/-- C6: classifying `TransactionError::Reverted{reason}` yields the message
with the reason embedded verbatim (it is a fixed prefix followed by exactly
`reason`), and `TransactionError::Rejected` yields the fixed rejection
message. -/
theorem reverted_reason_verbatim (reason : String) :
    handle_starknet_command_error (.TransactionError (.Reverted ⟨reason⟩)) =
      "Transaction has been reverted = " ++ reason
    ∧ (∃ p, handle_starknet_command_error (.TransactionError (.Reverted ⟨reason⟩)) = p ++ reason)
    ∧ handle_starknet_command_error (.TransactionError .Rejected) =
      "Transaction has been rejected" :=
  ⟨rfl, ⟨"Transaction has been reverted = ", rfl⟩, rfl⟩

/-- C7: no provider error — in particular no catch-all engine fault — is ever
classified as the reverted-transaction message; unrecognized provider errors
yield "Unknown RPC error", and only `TransactionError::Reverted` produces the
reverted message. -/
theorem catch_all_is_not_revert (e : ProviderError) (r : String) :
    (isListedProviderError e = false →
      handle_starknet_command_error (.Handleable e) = "Unknown RPC error")
    ∧ handle_starknet_command_error (.Handleable e) ≠ revertedMessage r
    ∧ handle_starknet_command_error (.TransactionError (.Reverted ⟨r⟩)) = revertedMessage r := by
  refine ⟨?_, ?_, rfl⟩
  · intro h
    cases e with
    | StarknetError ek => cases ek <;> first | rfl | simp [isListedProviderError] at h
    | RateLimited => rfl
    | ArrayLengthMismatch => rfl
    | Other d => rfl
  · unfold revertedMessage
    cases e with
    | StarknetError ek =>
      cases ek <;> simp only [handle_starknet_command_error] <;>
        first
          | exact string_ne_append_of_ne_at r 0 (by decide) (by decide)
          | exact string_ne_append_of_ne_at r 1 (by decide) (by decide)
          | exact string_ne_append_of_ne_at r 12 (by decide) (by decide)
          | exact string_append_ne_of_ne_at _ r 0 (by decide) (by decide) (by decide)
          | exact string_append_ne_of_ne_at _ r 12 (by decide) (by decide) (by decide)
    | RateLimited => exact string_ne_append_of_ne_at r 0 (by decide) (by decide)
    | ArrayLengthMismatch => exact string_ne_append_of_ne_at r 0 (by decide) (by decide)
    | Other d =>
      simp only [handle_starknet_command_error]
      exact string_ne_append_of_ne_at r 0 (by decide) (by decide)

/-- Witness for C7: at the concrete unlisted provider error `RateLimited` the
classification is "Unknown RPC error" and differs from a concrete reverted
message. -/
theorem catch_all_is_not_revert_witness :
    handle_starknet_command_error (.Handleable .RateLimited) = "Unknown RPC error"
    ∧ handle_starknet_command_error (.Handleable .RateLimited) ≠ revertedMessage "oops" :=
  ⟨(catch_all_is_not_revert .RateLimited "oops").1 rfl,
    (catch_all_is_not_revert .RateLimited "oops").2.1⟩

/-- C8: an `Unhandleable` error is returned unchanged by the classifier, so
its message reaches the caller unmodified. -/
theorem unhandleable_passthrough (msg : String) :
    handle_starknet_command_error (.Unhandleable msg) = msg := rfl

/-- The struct `StarknetContractArtifacts` from `crates/scarb-api/src/lib.rs`: the
compiled sierra and casm texts for one contract. -/
structure StarknetContractArtifacts where
  sierra : String
  casm : String
deriving DecidableEq

/-- The struct `DeclareResponse` from `cast::helpers::response_structs`, with
field elements modelled as `Nat`. -/
structure DeclareResponse where
  class_hash : Nat
  transaction_hash : Nat
deriving DecidableEq

/-- The fixed missing-artifacts error message of `declare`
(`crates/cast/src/starknet_commands/declare.rs`, line 42): a constant string
that does not mention the contract name. -/
def declareArtifactsNotFoundMessage : String :=
  "Failed to find artifacts in starknet_artifacts.json file. Make sure you have enabled sierra and casm code generation in Scarb.toml"

/-- The struct `DeclareTransactionResult` returned by the external provider
for a declare submission (`starknet-rs`): the class hash and transaction hash
the network reports. -/
structure DeclareTransactionResult where
  class_hash : Nat
  transaction_hash : Nat
deriving DecidableEq

/-- The outcome of `account.declare(..).send()` as matched by `declare.rs`
(lines 59-74): `Ok(result)`, `Err(Provider(error))`, or any other error (the
source's final `_` arm). -/
inductive AccountDeclareResult where
  | Ok (result : DeclareTransactionResult)
  | ProviderErr (error : ProviderError)
  | OtherErr
deriving DecidableEq

/-- The external collaborators `declare` calls, passed explicitly: the sierra
artifact parse (`serde_json::from_str::<SierraClass>`, success modelled as
`.ok ()` since only the failure matters downstream), the casm parse plus
class-hash computation (`serde_json::from_str::<CompiledClass>` and
`CompiledClass::class_hash`), the account declaration submission
(`account.declare(flattened_sierra, casm_class_hash).send()`, taking the
sierra text and the computed casm class hash), the RPC error formatter
(`handle_rpc_error`, in the cast library outside `src/`), and the
transaction-wait wrapper (`handle_wait_for_tx`, likewise external, which
receives the constructed response). -/
structure DeclareExternals where
  parse_sierra : String → Except String Unit
  casm_class_hash : String → Except String Nat
  send : String → Nat → AccountDeclareResult
  handle_rpc_error : ProviderError → String
  wait_for_tx : DeclareResponse → Except String DeclareResponse

/-- The function `declare` from
`crates/cast/src/starknet_commands/declare.rs`, with `anyhow::Result`
modelled as `Except String` (an error is its message).  A missing contract
name fails with the fixed, nameless message of line 42; on a successful
submission the response is built from the provider result's `class_hash` and
`transaction_hash` (lines 64-67) and handed to `handle_wait_for_tx`. -/
def declare (contract_name : String)
    (contracts : List (String × StarknetContractArtifacts))
    (ext : DeclareExternals) : Except String DeclareResponse :=
  match contracts.lookup contract_name with
  | none => .error declareArtifactsNotFoundMessage
  | some contract_artifacts =>
    match ext.parse_sierra contract_artifacts.sierra with
    | .error e => .error e
    | .ok _ =>
      match ext.casm_class_hash contract_artifacts.casm with
      | .error e => .error e
      | .ok casm_class_hash =>
        match ext.send contract_artifacts.sierra casm_class_hash with
        | .Ok result => ext.wait_for_tx ⟨result.class_hash, result.transaction_hash⟩
        | .ProviderErr error => .error (ext.handle_rpc_error error)
        | .OtherErr => .error "Unknown RPC error"

/-- A string equal to `p ++ n ++ q` contains the characters of `n` as an
infix segment. -/
theorem contains_of_eq_append (m p n q : String) (h : m = p ++ n ++ q) :
    n.data <:+: m.data := by
  refine ⟨p.data, q.data, ?_⟩
  rw [h]
  simp [String.data_append, List.append_assoc]

set_option maxRecDepth 4000 in
/-- Counterexample for C2: declaring `HelloStarknet` against an empty
artifacts map fails with the fixed message of `declare.rs`, and that message
does not embed the contract name anywhere — it is a plain `anyhow` error, not
a name-carrying `ContractArtifactsNotFound`. -/
theorem declare_missing_artifacts_counterexample :
    declare "HelloStarknet" []
      ⟨fun _ => .ok (), fun _ => .ok 0, fun _ _ => .OtherErr, fun _ => "", fun r => .ok r⟩
      = .error declareArtifactsNotFoundMessage
    ∧ ¬∃ p q, declareArtifactsNotFoundMessage = p ++ "HelloStarknet" ++ q := by
  refine ⟨rfl, ?_⟩
  rintro ⟨p, q, hpq⟩
  exact absurd (contains_of_eq_append _ _ _ _ hpq) (by decide)

/-- C2 (amended): for every contract name absent from the artifacts map and
any behavior of the external collaborators, `declare` fails with the one
fixed artifacts-not-found message, which is the same for every contract name
and so does not identify the missing contract; the name-carrying message
exists only in the sncast classifier, where classifying
`ContractArtifactsNotFound{contract_name}` yields a message embedding the
name. -/
theorem declare_missing_artifacts_amended (contract_name : String)
    (contracts : List (String × StarknetContractArtifacts))
    (ext : DeclareExternals)
    (habsent : contracts.lookup contract_name = none) :
    declare contract_name contracts ext = .error declareArtifactsNotFoundMessage
    ∧ ∃ p q, handle_starknet_command_error (.ContractArtifactsNotFound ⟨contract_name⟩) =
        p ++ contract_name ++ q := by
  constructor
  · unfold declare
    rw [habsent]
  · exact ⟨"Failed to find ", artifactsNotFoundSuffix, rfl⟩

/-- Witness for C2 (amended): declaring `HelloStarknet` against an empty map
fails with the fixed nameless message; the sncast classifier embeds the
name. -/
theorem declare_missing_artifacts_amended_witness :
    declare "HelloStarknet" []
      ⟨fun _ => .ok (), fun _ => .ok 0, fun _ _ => .OtherErr, fun _ => "", fun r => .ok r⟩
      = .error declareArtifactsNotFoundMessage
    ∧ ∃ p q, handle_starknet_command_error (.ContractArtifactsNotFound ⟨"HelloStarknet"⟩) =
        p ++ "HelloStarknet" ++ q :=
  declare_missing_artifacts_amended "HelloStarknet" []
    ⟨fun _ => .ok (), fun _ => .ok 0, fun _ _ => .OtherErr, fun _ => "", fun r => .ok r⟩ rfl

/-- Counterexample for C3: with the artifact present, a casm-hash collaborator
computing `7`, and a provider whose declare result reports class hash `999`,
`declare` returns a response whose `class_hash` is the provider's `999` —
`DeclareResponse.class_hash` is taken from `result.class_hash` (`declare.rs`
line 65), not from the computed casm class hash `7`. -/
theorem declare_class_hash_counterexample :
    (⟨fun _ => .ok (), fun _ => .ok 7, fun _ _ => .Ok ⟨999, 1⟩, fun _ => "",
        fun r => .ok r⟩ : DeclareExternals).casm_class_hash "casm text" = .ok 7
    ∧ declare "A" [("A", ⟨"sierra text", "casm text"⟩)]
        ⟨fun _ => .ok (), fun _ => .ok 7, fun _ _ => .Ok ⟨999, 1⟩, fun _ => "",
          fun r => .ok r⟩
        = .ok ⟨999, 1⟩
    ∧ (⟨999, 1⟩ : DeclareResponse).class_hash ≠ 7 :=
  ⟨rfl, rfl, by decide⟩

/-- C3 (amended): the casm class hash is computed by a pure collaborator from
the casm artifact alone — so repeated computations on the same casm text
yield the same hash — and it is that computed hash that `declare` submits
with the declaration; the class hash reported in the resulting
`DeclareResponse` is the one the provider's declare result returns. -/
theorem declare_class_hash_flow (contract_name : String)
    (contracts : List (String × StarknetContractArtifacts))
    (ext : DeclareExternals) (arts : StarknetContractArtifacts) (ch : Nat)
    (result : DeclareTransactionResult)
    (hlook : contracts.lookup contract_name = some arts)
    (hsierra : ext.parse_sierra arts.sierra = .ok ())
    (hhash : ext.casm_class_hash arts.casm = .ok ch)
    (hsend : ext.send arts.sierra ch = .Ok result) :
    declare contract_name contracts ext =
      ext.wait_for_tx ⟨result.class_hash, result.transaction_hash⟩
    ∧ ∀ arts2 : StarknetContractArtifacts, arts2.casm = arts.casm →
        ext.casm_class_hash arts2.casm = .ok ch := by
  constructor
  · simp only [declare, hlook, hsierra, hhash, hsend]
  · intro arts2 hc
    rw [hc, hhash]

/-- Witness for C3 (amended): at a concrete artifact, hash collaborator and
provider, `declare` submits the computed hash `7` and reports the provider's
class hash `999` in the response. -/
theorem declare_class_hash_flow_witness :
    declare "A" [("A", ⟨"sierra text", "casm text"⟩)]
      ⟨fun _ => .ok (), fun _ => .ok 7, fun _ _ => .Ok ⟨999, 1⟩, fun _ => "",
        fun r => .ok r⟩
      = .ok ⟨999, 1⟩
    ∧ ∀ arts2 : StarknetContractArtifacts,
        arts2.casm = (⟨"sierra text", "casm text"⟩ : StarknetContractArtifacts).casm →
        (⟨fun _ => .ok (), fun _ => .ok 7, fun _ _ => .Ok ⟨999, 1⟩, fun _ => "",
            fun r => .ok r⟩ : DeclareExternals).casm_class_hash arts2.casm = .ok 7 :=
  declare_class_hash_flow "A" [("A", ⟨"sierra text", "casm text"⟩)]
    ⟨fun _ => .ok (), fun _ => .ok 7, fun _ _ => .Ok ⟨999, 1⟩, fun _ => "",
      fun r => .ok r⟩
    ⟨"sierra text", "casm text"⟩ 7 ⟨999, 1⟩ rfl rfl rfl rfl

/-- blockifier `DeprecatedSyscallSelector`, restricted to the kinds the
regression fixtures in `crates/cheatnet/tests/starknet/resources.rs` count. -/
inductive DeprecatedSyscallSelector where
  | CallContract
  | Deploy
  | EmitEvent
  | StorageRead
  | StorageWrite
deriving DecidableEq

/-- The `cairo_vm` `ExecutionResources` struct (aliased `VmExecutionResources` in
`resources.rs`): step count, memory holes, and per-builtin usage, with the
builtin counter map modelled as an association list. -/
structure VmExecutionResources where
  n_steps : Nat
  n_memory_holes : Nat
  builtin_instance_counter : List (String × Nat)
deriving DecidableEq

/-- blockifier `ExecutionResources`: VM resources plus the syscall counter
observed by the interception layer. -/
structure ExecutionResources where
  vm_resources : VmExecutionResources
  syscall_counter : List (DeprecatedSyscallSelector × Nat)
deriving DecidableEq

/-- The struct `ResourceReport` (cheatnet `rpc`): the gas estimate (an `f64` in the
source, modelled as `ℚ`) together with the execution resources. -/
structure ResourceReport where
  gas : ℚ
  resources : ExecutionResources
deriving DecidableEq

/-- Modelled from the spec: the resource report of invoking `increase_balance`
on a freshly-deployed `HelloStarknet` with calldata `[123]` (§8).  The Cairo
execution engine and cheatnet's `call_contract` that runs this fixture are
external to `src/`; the report is the one the repository's regression test
`call_resources_simple` (`resources.rs`) pins as the engine's output, with the
`f64` gas value `2.16` modelled as the rational `216 / 100`. -/
def call_resources_simple_report : ResourceReport :=
  { gas := 216 / 100
    resources :=
      { vm_resources :=
          { n_steps := 126
            n_memory_holes := 0
            builtin_instance_counter := [("range_check_builtin", 2)] }
        syscall_counter := [(.StorageWrite, 1), (.StorageRead, 1)] } }

/-- C4: the `increase_balance` fixture report has `n_steps = 126`, zero memory
holes, `range_check` counted exactly twice (and no other builtin), exactly one
`StorageRead` and one `StorageWrite` syscall (and no other syscall), and
`gas = 2.16`. -/
theorem call_resources_simple_values :
    call_resources_simple_report.resources.vm_resources.n_steps = 126
    ∧ call_resources_simple_report.resources.vm_resources.n_memory_holes = 0
    ∧ call_resources_simple_report.resources.vm_resources.builtin_instance_counter =
        [("range_check_builtin", 2)]
    ∧ call_resources_simple_report.resources.syscall_counter.lookup .StorageRead = some 1
    ∧ call_resources_simple_report.resources.syscall_counter.lookup .StorageWrite = some 1
    ∧ call_resources_simple_report.resources.syscall_counter =
        [(.StorageWrite, 1), (.StorageRead, 1)]
    ∧ call_resources_simple_report.gas = 216 / 100 := by
  refine ⟨rfl, rfl, rfl, by decide, by decide, rfl, rfl⟩

/-- Modelled from the spec: the report of deploying `HelloStarknet` (no
constructor); §8 fixes zero VM work and gas equal to the fixed deployment base
cost.  `DEPLOY_GAS_COST` is an external blockifier constant, so the report is
stated as a function of an arbitrary value `deploy_gas_cost` for it; the
resource values are the ones the regression test `deploy_resources_simple`
(`resources.rs`) pins. -/
def deploy_resources_simple_report (deploy_gas_cost : ℚ) : ResourceReport :=
  { gas := deploy_gas_cost
    resources :=
      { vm_resources :=
          { n_steps := 0
            n_memory_holes := 0
            builtin_instance_counter := [] }
        syscall_counter := [] } }

/-- Modelled from the spec: the report of deploying `ConstructorSimple` with
constructor calldata `[1]`; §8 fixes `n_steps = 88`, two `range_check` uses,
one storage write, and gas equal to the deployment base cost plus a fixed
constructor-execution cost (`13840.0` in the regression test
`deploy_resources_with_constructor` in `resources.rs`). -/
def deploy_resources_with_constructor_report (deploy_gas_cost : ℚ) : ResourceReport :=
  { gas := 13840 + deploy_gas_cost
    resources :=
      { vm_resources :=
          { n_steps := 88
            n_memory_holes := 0
            builtin_instance_counter := [("range_check_builtin", 2)] }
        syscall_counter := [(.StorageWrite, 1)] } }

/-- C5: for any value of the deployment base cost, the no-constructor deploy
fixture reports zero VM steps, zero memory holes, no builtin or syscall
counts, and gas equal to the base cost alone; the one-argument-constructor
fixture reports `n_steps = 88`, two `range_check` uses, exactly one
`StorageWrite` syscall, and gas equal to the base cost plus the fixed
constructor-execution cost `13840`. -/
theorem deploy_resources_values (dg : ℚ) :
    (deploy_resources_simple_report dg).resources.vm_resources.n_steps = 0
    ∧ (deploy_resources_simple_report dg).resources.vm_resources.n_memory_holes = 0
    ∧ (deploy_resources_simple_report dg).resources.vm_resources.builtin_instance_counter = []
    ∧ (deploy_resources_simple_report dg).resources.syscall_counter = []
    ∧ (deploy_resources_simple_report dg).gas = dg
    ∧ (deploy_resources_with_constructor_report dg).resources.vm_resources.n_steps = 88
    ∧ (deploy_resources_with_constructor_report dg).resources.vm_resources.n_memory_holes = 0
    ∧ (deploy_resources_with_constructor_report dg).resources.vm_resources.builtin_instance_counter
        = [("range_check_builtin", 2)]
    ∧ (deploy_resources_with_constructor_report dg).resources.syscall_counter =
        [(.StorageWrite, 1)]
    ∧ (deploy_resources_with_constructor_report dg).gas = 13840 + dg :=
  ⟨rfl, rfl, rfl, rfl, rfl, rfl, rfl, rfl, rfl, rfl⟩

/-- Rust `HashMap::insert`, on the association-list model of a `HashMap`: the
new binding is consed in front, shadowing any previous binding of the same key
under the first-match `List.lookup`. -/
def hashMapInsert {V : Type} (m : List (String × V)) (k : String) (v : V) :
    List (String × V) :=
  (k, v) :: m

/-- Rust `HashMap::entry(key).or_insert(value)`: insert only when the key is
absent, never overwriting an existing binding. -/
def entryOrInsert {V : Type} (m : List (String × V)) (k : String) (v : V) :
    List (String × V) :=
  match m.lookup k with
  | some _ => m
  | none => (k, v) :: m

/-- The pure core of `load_contracts_artifacts_and_source_sierra_paths`
(`crates/scarb-api/src/lib.rs`): build the map keyed by `contract_name` by
inserting every contract of one artifacts file in file order.  The filesystem
read and the sierra compilation are external; a file is represented by its
list of `(contract_name, value)` pairs. -/
def loadFileMap {V : Type} (file : List (String × V)) : List (String × V) :=
  file.foldl (fun m p => hashMapInsert m p.1 p.2) []

/-- The inner loop of `StarknetArtifactsFiles::load_contracts_artifacts`:
`for (key, value) in artifact { base_artifacts.entry(key).or_insert(value) }`. -/
def insertFileEntries {V : Type} (acc : List (String × V)) (art : List (String × V)) :
    List (String × V) :=
  art.foldl (fun m p => entryOrInsert m p.1 p.2) acc

/-- The method `StarknetArtifactsFiles::load_contracts_artifacts`
(`crates/scarb-api/src/lib.rs`): load the base file, then fold every other
file's artifacts in with `entry(..).or_insert(..)`, which keeps the binding
already present. -/
def load_contracts_artifacts {V : Type} (base_file : List (String × V))
    (other_files : List (List (String × V))) : List (String × V) :=
  (other_files.map loadFileMap).foldl insertFileEntries (loadFileMap base_file)

/-- Inserting with `entry(k).or_insert(v)` preserves every existing binding. -/
theorem lookup_entryOrInsert_of_some {V : Type} (m : List (String × V)) (k k0 : String)
    (v : V) (v0 : V) (h : m.lookup k0 = some v0) :
    (entryOrInsert m k v).lookup k0 = some v0 := by
  unfold entryOrInsert
  cases hk : m.lookup k with
  | some w => exact h
  | none =>
    by_cases heq : k0 = k
    · rw [heq] at h
      rw [h] at hk
      cases hk
    · have hb : (k0 == k) = false := beq_eq_false_iff_ne.mpr heq
      simp [List.lookup_cons, hb, h]

/-- A key that occurs in a map is found by `List.lookup`. -/
theorem lookup_isSome_of_mem_keys {V : Type} (m : List (String × V)) (k : String)
    (h : k ∈ m.map Prod.fst) : (m.lookup k).isSome := by
  induction m with
  | nil => simp at h
  | cons p t ih =>
    obtain ⟨a, b⟩ := p
    by_cases hk : k = a
    · have he : ((a, b) :: t).lookup k = some b := by simp [List.lookup_cons, hk]
      simp [he]
    · have hb : (k == a) = false := beq_eq_false_iff_ne.mpr hk
      have he : ((a, b) :: t).lookup k = t.lookup k := by simp [List.lookup_cons, hb]
      rw [he]
      simp only [List.map_cons, List.mem_cons] at h
      rcases h with h | h
      · exact absurd h hk
      · exact ih h

/-- Folding a file's entries in with `or_insert` preserves every existing
binding of the accumulator. -/
theorem lookup_insertFileEntries_of_some {V : Type} (art : List (String × V))
    (acc : List (String × V)) (k : String) (v0 : V) (h : acc.lookup k = some v0) :
    (insertFileEntries acc art).lookup k = some v0 := by
  induction art generalizing acc with
  | nil => exact h
  | cons p t ih => exact ih _ (lookup_entryOrInsert_of_some _ _ _ _ _ h)

/-- After folding a file's entries in with `or_insert`, a key is present iff
already present or occurring among the folded entries (the "if" direction). -/
theorem lookup_insertFileEntries_isSome {V : Type} (art : List (String × V))
    (acc : List (String × V)) (k : String)
    (h : k ∈ art.map Prod.fst ∨ (acc.lookup k).isSome) :
    ((insertFileEntries acc art).lookup k).isSome := by
  induction art generalizing acc with
  | nil =>
    rcases h with h | h
    · simp at h
    · exact h
  | cons p t ih =>
    obtain ⟨a, b⟩ := p
    apply ih
    rcases h with h | h
    · simp only [List.map_cons, List.mem_cons] at h
      rcases h with h | h
      · right
        subst h
        unfold entryOrInsert
        cases hk : acc.lookup k with
        | some w => simp only [hk, Option.isSome_some]
        | none =>
          have he : ((k, b) :: acc).lookup k = some b := by simp [List.lookup_cons]
          simp only [hk, he, Option.isSome_some]
      · left
        exact h
    · right
      rcases Option.isSome_iff_exists.mp h with ⟨v0, hv⟩
      exact Option.isSome_iff_exists.mpr ⟨v0, lookup_entryOrInsert_of_some _ _ _ _ _ hv⟩

/-- The outer fold over the other files preserves every binding of the base
map. -/
theorem lookup_outerFold_of_some {V : Type} (files : List (List (String × V)))
    (acc : List (String × V)) (k : String) (v0 : V) (h : acc.lookup k = some v0) :
    (files.foldl insertFileEntries acc).lookup k = some v0 := by
  induction files generalizing acc with
  | nil => exact h
  | cons f t ih => exact ih _ (lookup_insertFileEntries_of_some _ _ _ _ h)

/-- The outer fold makes a key present as soon as it is present in the
accumulator or occurs in one of the folded files. -/
theorem lookup_outerFold_isSome {V : Type} (files : List (List (String × V)))
    (acc : List (String × V)) (k : String)
    (h : (acc.lookup k).isSome ∨ ∃ f ∈ files, k ∈ f.map Prod.fst) :
    ((files.foldl insertFileEntries acc).lookup k).isSome := by
  induction files generalizing acc with
  | nil =>
    rcases h with h | ⟨f, hf, _⟩
    · exact h
    · simp at hf
  | cons f t ih =>
    apply ih
    rcases h with h | ⟨g, hg, hk⟩
    · left
      exact lookup_insertFileEntries_isSome _ _ _ (Or.inr h)
    · rcases List.mem_cons.mp hg with hg | hg
      · left
        rw [← hg]
        exact lookup_insertFileEntries_isSome _ _ _ (Or.inl hk)
      · right
        exact ⟨g, hg, hk⟩

/-- Inserting a file's contracts keeps every key that occurs in the file or in
the accumulator. -/
theorem mem_keys_loadFileFold {V : Type} (file : List (String × V))
    (acc : List (String × V)) (k : String)
    (h : k ∈ file.map Prod.fst ∨ k ∈ acc.map Prod.fst) :
    k ∈ (file.foldl (fun m p => hashMapInsert m p.1 p.2) acc).map Prod.fst := by
  induction file generalizing acc with
  | nil =>
    rcases h with h | h
    · simp at h
    · exact h
  | cons p t ih =>
    apply ih
    rcases h with h | h
    · simp only [List.map_cons, List.mem_cons] at h
      rcases h with h | h
      · right
        simp only [hashMapInsert, List.map_cons, List.mem_cons]
        exact Or.inl h
      · left
        exact h
    · right
      simp only [hashMapInsert, List.map_cons, List.mem_cons]
      exact Or.inr h

/-- C9: when the same contract name occurs in the base artifacts file and in
any other file, the binding loaded from the base file is kept (`or_insert`
never overwrites an existing key); and every contract name occurring in any
loaded file is present in the returned map. -/
theorem load_contracts_artifacts_base_precedence {V : Type}
    (base_file : List (String × V)) (other_files : List (List (String × V)))
    (k : String) (v : V) :
    ((loadFileMap base_file).lookup k = some v →
      (load_contracts_artifacts base_file other_files).lookup k = some v)
    ∧ ((k ∈ base_file.map Prod.fst ∨ ∃ f ∈ other_files, k ∈ f.map Prod.fst) →
      ((load_contracts_artifacts base_file other_files).lookup k).isSome) := by
  constructor
  · intro h
    exact lookup_outerFold_of_some _ _ _ _ h
  · intro h
    rcases h with h | ⟨f, hf, hk⟩
    · apply lookup_outerFold_isSome _ _ _ (Or.inl ?_)
      apply lookup_isSome_of_mem_keys
      exact mem_keys_loadFileFold _ _ _ (Or.inl h)
    · apply lookup_outerFold_isSome _ _ _ (Or.inr ?_)
      refine ⟨loadFileMap f, List.mem_map_of_mem _ hf, ?_⟩
      exact mem_keys_loadFileFold _ _ _ (Or.inl hk)

/-- The constant `INTEGRATION_TEST_TYPE` from `crates/scarb-api/src/lib.rs`. -/
def INTEGRATION_TEST_TYPE : String := "integration"

/-- The local `ContractArtifactData` struct of
`get_starknet_artifacts_paths_from_test_targets`: an artifact path and the
target's `test-type` parameter. -/
structure ContractArtifactData where
  path : String
  test_type : Option String
deriving DecidableEq

/-- The struct `StarknetArtifactsFiles` from `crates/scarb-api/src/lib.rs`, with paths
modelled as strings. -/
structure StarknetArtifactsFiles where
  base_file : String
  other_files : List String
deriving DecidableEq

/-- The path `target_dir.join("{name}.test.starknet_artifacts.json")` built by
the `artifact` closure; `join` is modelled as concatenation with a
separator. -/
def artifactPath (target_dir name : String) : String :=
  target_dir ++ "/" ++ name ++ ".test.starknet_artifacts.json"

/-- The `artifact` closure of `get_starknet_artifacts_paths_from_test_targets`:
`None` when the artifact file is missing on disk (the warning print is not
modelled), otherwise the path together with the target's `test-type`
parameter.  The filesystem is modelled by the predicate `disk`; a test target
by its name and its `test-type` parameter. -/
def artifactFor (target_dir : String) (disk : String → Bool) (name : String)
    (test_type : Option String) : Option ContractArtifactData :=
  if disk (artifactPath target_dir name) then
    some ⟨artifactPath target_dir name, test_type⟩
  else none

/-- The `artifacts` vector: the test targets whose artifact file exists, in
iteration order of the test-target map. -/
def testArtifacts (target_dir : String) (disk : String → Bool)
    (test_targets : List (String × Option String)) : List ContractArtifactData :=
  test_targets.filterMap fun p => artifactFor target_dir disk p.1 p.2

/-- The `base_artifact` selection: the first artifact with `test-type`
`integration` when one exists, else the first artifact found. -/
def baseArtifact (target_dir : String) (disk : String → Bool)
    (test_targets : List (String × Option String)) : Option ContractArtifactData :=
  ((testArtifacts target_dir disk test_targets).find?
      fun a => a.test_type == some INTEGRATION_TEST_TYPE).orElse
    fun _ => (testArtifacts target_dir disk test_targets).head?

/-- The function `get_starknet_artifacts_paths_from_test_targets` from
`crates/scarb-api/src/lib.rs`: `None` when no base artifact could be chosen;
otherwise the base path plus the paths of every other artifact (everything
not equal to the base artifact). -/
def get_starknet_artifacts_paths_from_test_targets (target_dir : String)
    (disk : String → Bool) (test_targets : List (String × Option String)) :
    Option StarknetArtifactsFiles :=
  match baseArtifact target_dir disk test_targets with
  | some b =>
      some ⟨b.path,
        ((testArtifacts target_dir disk test_targets).filter fun a => a != b).map
          ContractArtifactData.path⟩
  | none => none

/-- The `artifact` closure returns `None` exactly when the file is missing. -/
theorem artifactFor_eq_none_iff (target_dir : String) (disk : String → Bool)
    (name : String) (t : Option String) :
    artifactFor target_dir disk name t = none ↔
      disk (artifactPath target_dir name) = false := by
  unfold artifactFor
  cases hd : disk (artifactPath target_dir name) <;> simp [hd]

/-- Characterization of a successful `artifact` lookup. -/
theorem artifactFor_eq_some_iff (target_dir : String) (disk : String → Bool)
    (name : String) (t : Option String) (a : ContractArtifactData) :
    artifactFor target_dir disk name t = some a ↔
      disk (artifactPath target_dir name) = true
        ∧ a = ⟨artifactPath target_dir name, t⟩ := by
  unfold artifactFor
  cases hd : disk (artifactPath target_dir name)
  · simp [hd]
  · simp [hd, eq_comm]

/-- The artifact path determines the target name. -/
theorem artifactPath_inj (target_dir n1 n2 : String)
    (h : artifactPath target_dir n1 = artifactPath target_dir n2) : n1 = n2 := by
  have hd := congrArg String.data h
  simp only [artifactPath, String.data_append, List.append_assoc] at hd
  have h1 := List.append_cancel_left hd
  have h2 := List.append_cancel_left h1
  have h3 := List.append_cancel_right h2
  exact String.ext h3

/-- With pairwise-distinct target names, two artifacts with the same path are
the same artifact. -/
theorem testArtifacts_path_inj (target_dir : String) (disk : String → Bool)
    (test_targets : List (String × Option String))
    (hnd : (test_targets.map Prod.fst).Nodup)
    (a c : ContractArtifactData)
    (ha : a ∈ testArtifacts target_dir disk test_targets)
    (hc : c ∈ testArtifacts target_dir disk test_targets)
    (hp : a.path = c.path) : a = c := by
  rcases List.mem_filterMap.mp ha with ⟨x, hx, hxa⟩
  rcases List.mem_filterMap.mp hc with ⟨y, hy, hyc⟩
  replace hxa : artifactFor target_dir disk x.1 x.2 = some a := hxa
  replace hyc : artifactFor target_dir disk y.1 y.2 = some c := hyc
  rcases (artifactFor_eq_some_iff _ _ _ _ _).mp hxa with ⟨_, hae⟩
  rcases (artifactFor_eq_some_iff _ _ _ _ _).mp hyc with ⟨_, hce⟩
  have hpx : a.path = artifactPath target_dir x.1 := by rw [hae]
  have hpy : c.path = artifactPath target_dir y.1 := by rw [hce]
  have hnames : x.1 = y.1 := artifactPath_inj _ _ _ (by rw [← hpx, ← hpy, hp])
  have hxy : x = y := List.inj_on_of_nodup_map hnd hx hy hnames
  rw [hae, hce, hxy]

/-- No base artifact is chosen exactly when no artifact file exists. -/
theorem baseArtifact_eq_none_iff (target_dir : String) (disk : String → Bool)
    (test_targets : List (String × Option String)) :
    baseArtifact target_dir disk test_targets = none ↔
      testArtifacts target_dir disk test_targets = [] := by
  unfold baseArtifact
  cases harts : testArtifacts target_dir disk test_targets with
  | nil => simp [Option.orElse]
  | cons a t =>
    cases hf : (a :: t).find? fun x => x.test_type == some INTEGRATION_TEST_TYPE <;>
      simp [Option.orElse, hf]

/-- The chosen base artifact is one of the found artifacts. -/
theorem baseArtifact_mem (target_dir : String) (disk : String → Bool)
    (test_targets : List (String × Option String)) (b : ContractArtifactData)
    (h : baseArtifact target_dir disk test_targets = some b) :
    b ∈ testArtifacts target_dir disk test_targets := by
  unfold baseArtifact at h
  cases hf : (testArtifacts target_dir disk test_targets).find?
      fun a => a.test_type == some INTEGRATION_TEST_TYPE with
  | some c =>
    rw [hf] at h
    have hcb : c = b := by simpa [Option.orElse] using h
    rw [← hcb]
    exact List.mem_of_find?_eq_some hf
  | none =>
    rw [hf] at h
    have hh : (testArtifacts target_dir disk test_targets).head? = some b := by
      simpa [Option.orElse] using h
    exact List.mem_of_mem_head? (Option.mem_def.mpr hh)

/-- C10: with pairwise-distinct target names, the function returns `None`
exactly when no test-target artifact file exists on disk; otherwise the chosen
base file is an artifact whose test type is `integration` when one exists,
else the first artifact found; the base file never appears in `other_files`,
and every other existing artifact's path does. -/
theorem get_starknet_artifacts_paths_cases (target_dir : String) (disk : String → Bool)
    (test_targets : List (String × Option String))
    (hnd : (test_targets.map Prod.fst).Nodup) :
    (get_starknet_artifacts_paths_from_test_targets target_dir disk test_targets = none
      ↔ ∀ p ∈ test_targets, disk (artifactPath target_dir p.1) = false)
    ∧ ∀ files,
        get_starknet_artifacts_paths_from_test_targets target_dir disk test_targets
          = some files →
        ((∃ a ∈ testArtifacts target_dir disk test_targets,
            a.test_type = some INTEGRATION_TEST_TYPE) →
          ∃ a ∈ testArtifacts target_dir disk test_targets,
            a.test_type = some INTEGRATION_TEST_TYPE ∧ files.base_file = a.path)
        ∧ ((∀ a ∈ testArtifacts target_dir disk test_targets,
            a.test_type ≠ some INTEGRATION_TEST_TYPE) →
          ∃ a, (testArtifacts target_dir disk test_targets).head? = some a
            ∧ files.base_file = a.path)
        ∧ files.base_file ∉ files.other_files
        ∧ ∀ a ∈ testArtifacts target_dir disk test_targets,
            a.path ≠ files.base_file → a.path ∈ files.other_files := by
  have hiff1 : testArtifacts target_dir disk test_targets = []
      ↔ ∀ p ∈ test_targets, disk (artifactPath target_dir p.1) = false := by
    unfold testArtifacts
    rw [List.filterMap_eq_nil_iff]
    constructor
    · intro h p hp
      exact (artifactFor_eq_none_iff _ _ _ _).mp (h p hp)
    · intro h p hp
      exact (artifactFor_eq_none_iff _ _ _ _).mpr (h p hp)
  constructor
  · rw [← hiff1]
    unfold get_starknet_artifacts_paths_from_test_targets
    cases hb : baseArtifact target_dir disk test_targets with
    | some b =>
      simp only [hb]
      constructor
      · intro h
        simp at h
      · intro h
        have hn := (baseArtifact_eq_none_iff target_dir disk test_targets).mpr h
        rw [hn] at hb
        simp at hb
    | none =>
      simp only [hb]
      constructor
      · intro _
        exact (baseArtifact_eq_none_iff _ _ _).mp hb
      · intro _
        trivial
  · intro files hres
    unfold get_starknet_artifacts_paths_from_test_targets at hres
    cases hb : baseArtifact target_dir disk test_targets with
    | none =>
      rw [hb] at hres
      simp at hres
    | some b =>
      rw [hb] at hres
      simp only [Option.some.injEq] at hres
      subst hres
      refine ⟨?_, ?_, ?_, ?_⟩
      · rintro ⟨a0, ha0, htype⟩
        have hsome : ((testArtifacts target_dir disk test_targets).find?
            fun a => a.test_type == some INTEGRATION_TEST_TYPE).isSome := by
          rw [List.find?_isSome]
          exact ⟨a0, ha0, by simp [htype]⟩
        rcases Option.isSome_iff_exists.mp hsome with ⟨c, hc⟩
        have hbase : baseArtifact target_dir disk test_targets = some c := by
          unfold baseArtifact
          rw [hc]
          rfl
        have hbc : b = c := by
          rw [hb] at hbase
          exact Option.some_inj.mp hbase
        refine ⟨c, List.mem_of_find?_eq_some hc, ?_, by rw [hbc]⟩
        have := List.find?_some hc
        simpa using this
      · intro hno
        have hf : (testArtifacts target_dir disk test_targets).find?
            (fun a => a.test_type == some INTEGRATION_TEST_TYPE) = none := by
          rw [List.find?_eq_none]
          intro x hx
          simp [hno x hx]
        have hbase : baseArtifact target_dir disk test_targets
            = (testArtifacts target_dir disk test_targets).head? := by
          unfold baseArtifact
          rw [hf]
          rfl
        refine ⟨b, ?_, rfl⟩
        rw [← hbase]
        exact hb
      · intro hmem
        rcases List.mem_map.mp hmem with ⟨a, haf, hap⟩
        rcases List.mem_filter.mp haf with ⟨hamem, hane⟩
        have hab : a = b :=
          testArtifacts_path_inj _ _ _ hnd a b hamem (baseArtifact_mem _ _ _ _ hb) hap
        rw [hab] at hane
        simp at hane
      · intro a hamem hap
        refine List.mem_map.mpr ⟨a, ?_, rfl⟩
        refine List.mem_filter.mpr ⟨hamem, ?_⟩
        simp only [bne_iff_ne, ne_eq]
        intro hab
        exact hap (by rw [hab])

/-- Witness for C10: with one test target and an empty disk, the function
returns `None`. -/
theorem get_starknet_artifacts_paths_cases_witness :
    get_starknet_artifacts_paths_from_test_targets "t" (fun _ => false) [("u", none)]
      = none :=
  (get_starknet_artifacts_paths_cases "t" (fun _ => false) [("u", none)]
      (by decide)).1.mpr (by decide)

/-- Witness for C9: with `A` in both the base file and an other file, the base
binding `0` survives; `B`, occurring only in an other file, is present. -/
theorem load_contracts_artifacts_base_precedence_witness :
    (load_contracts_artifacts [("A", 0)] [[("A", 1)], [("B", 2)]]).lookup "A" = some 0
    ∧ ((load_contracts_artifacts [("A", 0)] [[("B", 2)]]).lookup "B").isSome :=
  ⟨(load_contracts_artifacts_base_precedence [("A", 0)] [[("A", 1)], [("B", 2)]] "A" 0).1
      (by decide),
    (load_contracts_artifacts_base_precedence [("A", 0)] [[("B", 2)]] "B" 0).2
      (Or.inr ⟨[("B", 2)], by decide, by decide⟩)⟩
